import Mathlib

/-!
Shallow embedding of the timer/PWM subsystem of the msp430fr2x5x HAL
(src/pwm.rs, src/hw_traits/timerb.rs), together with proofs of the
spec claims about it.

Registers are modelled field-wise: a svd2rust `write` builds a fresh
register from the reset value and sets the named fields; `modify` starts
from the current value; `set_bits`/`clear_bits` (single-instruction
BIS/BIC on msp430) set or clear exactly the named fields and leave all
others untouched.  Since the fields of one register are disjoint bit
ranges, the field-wise model is faithful to the bit-level one.
-/

/-- The four timer B peripherals of the chip (pac::TB0..TB3).
TB0, TB1, TB2 have 3 capture-compare registers, TB3 has 7
(timerb_impl! instantiations in hw_traits/timerb.rs). -/
inductive TimerId
  | tb0
  | tb1
  | tb2
  | tb3
deriving DecidableEq, Repr, Fintype

/-- hw_traits/timerb.rs `enum Tbssel`: timer clock source select field. -/
inductive Tbssel
  | Tbxclk
  | Aclk
  | Smclk
  | Inclk
deriving DecidableEq, Repr, Fintype

/-- hw_traits/timerb.rs `enum ID`: first-stage input divider (/1, /2, /4, /8).
The Rust variants are `_1, _2, _4, _8`; Lean does not allow those names. -/
inductive ID
  | D1
  | D2
  | D4
  | D8
deriving DecidableEq, Repr, Fintype

/-- hw_traits/timerb.rs `enum Tbidex`: second-stage input divider expansion
(/1 .. /8).  The Rust variants are `_1 .. _8`. -/
inductive Tbidex
  | D1
  | D2
  | D3
  | D4
  | D5
  | D6
  | D7
  | D8
deriving DecidableEq, Repr, Fintype

/-- Division factor encoded by a first-stage divider value. -/
def ID.factor : ID → Nat
  | .D1 => 1
  | .D2 => 2
  | .D4 => 4
  | .D8 => 8

/-- Division factor encoded by a second-stage divider value. -/
def Tbidex.factor : Tbidex → Nat
  | .D1 => 1
  | .D2 => 2
  | .D3 => 3
  | .D4 => 4
  | .D5 => 5
  | .D6 => 6
  | .D7 => 7
  | .D8 => 8

/-- hw_traits/timerb.rs `enum Outmod`: output mode of a capture-compare
channel, in the hardware encoding order (Out = 0 .. ResetSet = 7). -/
inductive Outmod
  | Out
  | Set
  | ToggleReset
  | SetReset
  | Toggle
  | Reset
  | ToggleSet
  | ResetSet
deriving DecidableEq, Repr, Fintype

/-- hw_traits/timerb.rs `enum CapMode`. -/
inductive CapMode
  | NoCap
  | RisingEdge
  | FallingEdge
  | BothEdges
deriving DecidableEq, Repr, Fintype

/-- hw_traits/timerb.rs `enum CapSelect`. -/
inductive CapSelect
  | InputA
  | InputB
deriving DecidableEq, Repr, Fintype

/-- The MC (mode control) field of the timer control register:
stop / up / continuous / up-down. -/
inductive Mc
  | stop
  | up
  | continuous
  | updown
deriving DecidableEq, Repr, Fintype

/-- Fields of a capture-compare control register TBxCCTLn touched by the
code (outmod, cap, scs, cm, ccis, ccifg, ccie, cov). -/
structure CctlReg where
  outmod : Outmod
  cap : Bool
  scs : Bool
  cm : CapMode
  ccis : CapSelect
  ccifg : Bool
  ccie : Bool
  cov : Bool
deriving DecidableEq, Repr

/-- Reset value of a TBxCCTLn register: all fields zero. -/
def CctlReg.rstVal : CctlReg :=
  { outmod := .Out, cap := false, scs := false, cm := .NoCap,
    ccis := .InputA, ccifg := false, ccie := false, cov := false }

/-- Fields of the timer control register TBxCTL touched by the code. -/
structure CtlReg where
  tbssel : Tbssel
  id : ID
  mc : Mc
  tbclr : Bool
  tbifg : Bool
  tbie : Bool
deriving DecidableEq, Repr

/-- Reset value of TBxCTL: all fields zero. -/
def CtlReg.rstVal : CtlReg :=
  { tbssel := .Tbxclk, id := .D1, mc := .stop, tbclr := false,
    tbifg := false, tbie := false }

/-- Register state of one timer B peripheral: control register, expansion
register (its only field is TBIDEX), and one compare register TBxCCRn and
one control register TBxCCTLn per channel.  All peripherals are given 7
slots; the 3-channel ones simply never touch slots 3..6. -/
structure TimerState where
  ctl : CtlReg
  ex : Tbidex
  ccr : Fin 7 → Nat
  cctl : Fin 7 → CctlReg

/-- A GPIO pin address: port number and pin number, e.g. P1.6. -/
structure PinAddr where
  port : Nat
  pin : Nat
deriving DecidableEq, Repr

/-- Function-select state of one pin: the SEL0 and SEL1 bits.
(0,0) is plain I/O, (1,0) is primary (Alternate1) function,
(0,1) is secondary (Alternate2) function. -/
structure PinFunc where
  sel0 : Bool
  sel1 : Bool
deriving DecidableEq, Repr

/-- Whole-system state: the registers of every timer peripheral plus the
function-select bits of every pin. -/
structure SysState where
  tb : TimerId → TimerState
  gpio : PinAddr → PinFunc

/-- Apply a register update to one timer peripheral, leaving the other
peripherals and all pins untouched. -/
def updateTb (t : TimerId) (f : TimerState → TimerState) (st : SysState) :
    SysState :=
  { st with tb := Function.update st.tb t (f (st.tb t)) }

/-- hw_traits/timerb.rs `SubTimer::set_ccrn`: full-register write of the
16-bit compare register TBxCCRn (`w.bits(count)`). -/
def set_ccrn (t : TimerId) (n : Fin 7) (count : Nat) (st : SysState) :
    SysState :=
  updateTb t (fun ts => { ts with ccr := Function.update ts.ccr n (count % 65536) }) st

/-- hw_traits/timerb.rs `SubTimer::get_ccrn`: read TBxCCRn. -/
def get_ccrn (t : TimerId) (n : Fin 7) (st : SysState) : Nat :=
  (st.tb t).ccr n

/-- hw_traits/timerb.rs `SubTimer::config_cmp_mode` (named `config_outmod`
at the pwm.rs call sites): a `write` of TBxCCTLn setting only the OUTMOD
field, so every other field takes its reset value. -/
def config_outmod (t : TimerId) (n : Fin 7) (m : Outmod) (st : SysState) :
    SysState :=
  updateTb t
    (fun ts => { ts with cctl := Function.update ts.cctl n { CctlReg.rstVal with outmod := m } }) st

/-- hw_traits/timerb.rs `SubTimer::ccifg_clr`:
`clear_bits(|w| w.ccifg().clear_bit())` clears exactly the CCIFG field. -/
def ccifg_clr (t : TimerId) (n : Fin 7) (st : SysState) : SysState :=
  updateTb t
    (fun ts => { ts with cctl := Function.update ts.cctl n { ts.cctl n with ccifg := false } }) st

/-- hw_traits/timerb.rs `SubTimer::cov_ccifg_clr`, transcribed exactly as
written: `clear_bits(|w| w.ccie().clear_bit().cov().clear_bit())` clears
the CCIE and COV fields and leaves every other field, CCIFG included,
unchanged. -/
def cov_ccifg_clr (t : TimerId) (n : Fin 7) (st : SysState) : SysState :=
  updateTb t
    (fun ts =>
       { ts with cctl := Function.update ts.cctl n { ts.cctl n with ccie := false, cov := false } }) st

/-- hw_traits/timerb.rs `TimerB::config_clock`: a `write` of TBxCTL setting
the TBSSEL and ID fields, everything else going to reset (in particular
MC becomes stop). -/
def config_clock (t : TimerId) (sel : Tbssel) (d : ID) (st : SysState) :
    SysState :=
  updateTb t (fun ts => { ts with ctl := { CtlReg.rstVal with tbssel := sel, id := d } }) st

/-- hw_traits/timerb.rs `TimerB::set_tbidex`: a `write` of TBxEX0, whose
only field is TBIDEX. -/
def set_tbidex (t : TimerId) (x : Tbidex) (st : SysState) : SysState :=
  updateTb t (fun ts => { ts with ex := x }) st

/-- hw_traits/timerb.rs `TimerB::upmode`: a `modify` of TBxCTL that sets
TBCLR, clears TBIFG and sets MC to up, keeping the other fields. -/
def upmode (t : TimerId) (st : SysState) : SysState :=
  updateTb t
    (fun ts => { ts with ctl := { ts.ctl with tbclr := true, tbifg := false, mc := .up } }) st

/-- Modelled from the spec: src/gpio.rs is not present; spec section 6
says the pin collaborator provides the capability to switch a specific
pin between plain I/O and one of two alternate electrical functions via
its SEL bits.  `set_sel0` sets the SEL0 bit of exactly one pin. -/
def set_sel0 (a : PinAddr) (st : SysState) : SysState :=
  { st with gpio := Function.update st.gpio a { st.gpio a with sel0 := true } }

/-- Modelled from the spec: sets the SEL1 bit of exactly one pin. -/
def set_sel1 (a : PinAddr) (st : SysState) : SysState :=
  { st with gpio := Function.update st.gpio a { st.gpio a with sel1 := true } }

/-- Modelled from the spec: clears the SEL0 bit of exactly one pin. -/
def clear_sel0 (a : PinAddr) (st : SysState) : SysState :=
  { st with gpio := Function.update st.gpio a { st.gpio a with sel0 := false } }

/-- Modelled from the spec: clears the SEL1 bit of exactly one pin. -/
def clear_sel1 (a : PinAddr) (st : SysState) : SysState :=
  { st with gpio := Function.update st.gpio a { st.gpio a with sel1 := false } }

/-- pwm.rs `enum Alt`: which alternate function a PWM pin uses. -/
inductive Alt
  | Alt1
  | Alt2
deriving DecidableEq, Repr, Fintype

/-- pwm.rs `PwmGpio` impl table: the unique (pin address, alternate
function) wired to each (timer, channel) pair.  Channel 0 and the
channels a peripheral does not expose have no entry. -/
def pwmGpio (t : TimerId) (n : Fin 7) : Option (PinAddr × Alt) :=
  match t, n.val with
  | .tb0, 1 => some (⟨1, 6⟩, .Alt2)
  | .tb0, 2 => some (⟨1, 7⟩, .Alt2)
  | .tb1, 1 => some (⟨2, 0⟩, .Alt1)
  | .tb1, 2 => some (⟨2, 1⟩, .Alt1)
  | .tb2, 1 => some (⟨5, 0⟩, .Alt1)
  | .tb2, 2 => some (⟨5, 1⟩, .Alt1)
  | .tb3, 1 => some (⟨6, 0⟩, .Alt1)
  | .tb3, 2 => some (⟨6, 1⟩, .Alt1)
  | .tb3, 3 => some (⟨6, 2⟩, .Alt1)
  | .tb3, 4 => some (⟨6, 3⟩, .Alt1)
  | .tb3, 5 => some (⟨6, 4⟩, .Alt1)
  | .tb3, 6 => some (⟨6, 5⟩, .Alt1)
  | _, _ => none

/-- pwm.rs `PwmGpio::to_alt`: switch the pin to its alternate function —
SEL0 for Alt1, SEL1 for Alt2. -/
def to_alt (alt : Alt) (a : PinAddr) (st : SysState) : SysState :=
  match alt with
  | .Alt1 => set_sel0 a st
  | .Alt2 => set_sel1 a st

/-- pwm.rs `PwmGpio::to_gpio`: switch the pin back to plain I/O —
clear SEL0 for Alt1, clear SEL1 for Alt2. -/
def to_gpio (alt : Alt) (a : PinAddr) (st : SysState) : SysState :=
  match alt with
  | .Alt1 => clear_sel0 a st
  | .Alt2 => clear_sel1 a st

/-- Modelled from the spec: src/timer.rs is not present.  Spec section 4.2
lists the accepted clock sources as internal-low, auxiliary and sub-main,
mapped here onto the hardware select field (INCLK, ACLK, SMCLK). -/
inductive ClockSource
  | internalLow
  | auxiliary
  | subMain
deriving DecidableEq, Repr, Fintype

/-- Hardware select value of each accepted clock source. -/
def ClockSource.toTbssel : ClockSource → Tbssel
  | .internalLow => .Inclk
  | .auxiliary => .Aclk
  | .subMain => .Smclk

/-- Modelled from the spec: src/timer.rs `TimerConfig` — a clock source
plus the two divider stages (spec section 4.2: "two-stage integer
divider"). -/
structure TimerConfig where
  src : ClockSource
  div : ID
  exDiv : Tbidex

/-- One register operation issued by the PWM setup code.  A trace of these
events is the program text of `to_pwm`; `Event.apply` is its semantics. -/
inductive Event
  | configClockEv (t : TimerId) (sel : Tbssel) (d : ID)
  | setTbidexEv (t : TimerId) (x : Tbidex)
  | setCcrnEv (t : TimerId) (n : Fin 7) (v : Nat)
  | configOutmodEv (t : TimerId) (n : Fin 7) (m : Outmod)
  | upmodeEv (t : TimerId)
deriving DecidableEq, Repr

/-- Semantics of one event: the register write it performs. -/
def Event.apply : Event → SysState → SysState
  | .configClockEv t sel d => config_clock t sel d
  | .setTbidexEv t x => set_tbidex t x
  | .setCcrnEv t n v => set_ccrn t n v
  | .configOutmodEv t n m => config_outmod t n m
  | .upmodeEv t => upmode t

/-- Run a trace of register operations in program order. -/
def runEvents (es : List Event) (st : SysState) : SysState :=
  es.foldl (fun s e => e.apply s) st

/-- Modelled from the spec: src/timer.rs `TimerConfig::write_regs` applies
the clock/divider configuration registers (spec section 4.4 step 1),
i.e. the TBSSEL/ID fields of TBxCTL and the TBIDEX field of TBxEX0. -/
def write_regs (cfg : TimerConfig) (t : TimerId) : List Event :=
  [.configClockEv t cfg.src.toTbssel cfg.div, .setTbidexEv t cfg.exDiv]

/-- Channel count of each peripheral, from the timerb_impl! instantiations
in hw_traits/timerb.rs: TB0, TB1, TB2 list CCR0..CCR2, TB3 lists
CCR0..CCR6. -/
def chanCount : TimerId → Nat
  | .tb0 => 3
  | .tb1 => 3
  | .tb2 => 3
  | .tb3 => 7

/-- The usable PWM channels of each peripheral, as listed both by the
`PwmConfigChannels` impls (pwm.rs lines 32..66) and the fields of
`ThreeCCRnPins` / `SevenCCRnPins` (pwm.rs lines 150..194). -/
def pwmChannels : TimerId → List (Fin 7)
  | .tb0 => [1, 2]
  | .tb1 => [1, 2]
  | .tb2 => [1, 2]
  | .tb3 => [1, 2, 3, 4, 5, 6]

/-- pwm.rs `PwmConfigChannels::config_channels`: set the output mode of
every usable channel to Outmod::ResetSet — the mode the spec glossary
calls set-reset: set high at the period (CCR0) match, reset low at the
channel compare match. -/
def config_channels (t : TimerId) : List Event :=
  (pwmChannels t).map (fun c => .configOutmodEv t c .ResetSet)

/-- pwm.rs `PwmExt::to_pwm`, transcribed statement by statement:
write_regs, then period into CCR0, then CCR0 output mode Toggle, then
config_channels, then upmode. -/
def to_pwmTrace (t : TimerId) (cfg : TimerConfig) (period : Nat) :
    List Event :=
  write_regs cfg t ++
    [.setCcrnEv t 0 period, .configOutmodEv t 0 .Toggle] ++
    config_channels t ++ [.upmodeEv t]

/-- State semantics of `to_pwm`: run its trace. -/
def to_pwm (t : TimerId) (cfg : TimerConfig) (period : Nat) (st : SysState) :
    SysState :=
  runEvents (to_pwmTrace t cfg period) st

/-- Lifecycle state of a PWM channel object (spec section 4.3). -/
inductive PwmState
  | unbound
  | bound
deriving DecidableEq, Repr

/-- The channel objects returned by `to_pwm`: one `PwmUninit` (unbound)
value per field of `ThreeCCRnPins` / `SevenCCRnPins`, produced by
`Default::default`. -/
def to_pwmPins (t : TimerId) : List (Fin 7 × PwmState) :=
  (pwmChannels t).map (fun c => (c, .unbound))

/-- pwm.rs `Pwm::set_duty`: unconditional write of the channel compare
register TBxCCRn via `SubTimer::set_ccrn`. -/
def set_duty (t : TimerId) (n : Fin 7) (d : Nat) (st : SysState) : SysState :=
  set_ccrn t n d st

/-- pwm.rs `Pwm::get_duty`: read back TBxCCRn. -/
def get_duty (t : TimerId) (n : Fin 7) (st : SysState) : Nat :=
  get_ccrn t n st

/-- pwm.rs `Pwm::get_max_duty`: read CCR0 of the owning peripheral.  The
channel index of the `Pwm` value it is called on is kept as an argument
only to mirror the method receiver; the body ignores it. -/
def get_max_duty (t : TimerId) (_n : Fin 7) (st : SysState) : Nat :=
  get_ccrn t 0 st

/-- pwm.rs `Pwm::enable`: `PwmGpio::to_alt` on the bound pin.  The
source method exists only for (timer, channel) pairs with a `PwmGpio`
impl, so the `none` branch is unreachable there. -/
def enable (t : TimerId) (n : Fin 7) (st : SysState) : SysState :=
  match pwmGpio t n with
  | some (a, alt) => to_alt alt a st
  | none => st

/-- pwm.rs `Pwm::disable`: `PwmGpio::to_gpio` on the bound pin. -/
def disable (t : TimerId) (n : Fin 7) (st : SysState) : SysState :=
  match pwmGpio t n with
  | some (a, alt) => to_gpio alt a st
  | none => st

/-- The binding flow of a channel (spec section 4.3): the GPIO layer
(src/gpio.rs, not present; modelled from the spec) converts the channel's
designated pin to the alternate function demanded by the pin type of
`PwmUninit::init` — the same SEL-bit switch `PwmGpio::to_alt` performs —
and `init` then consumes the converted pin without further register
access. -/
def bindPin (t : TimerId) (n : Fin 7) (st : SysState) : SysState :=
  match pwmGpio t n with
  | some (a, alt) => to_alt alt a st
  | none => st

/-- Modelled from the spec (glossary, set-reset output mode; section 8):
in up mode with mode ResetSet the output is set high at the period match
and reset low when the counter reaches the compare value, so at counter
value `cnt` of a period the output is high exactly when `cnt < duty`. -/
def outputHigh (_period duty cnt : Nat) : Bool :=
  decide (cnt < duty)

/-- A user-level operation available on a bound PWM channel. -/
inductive PwmOp
  | setDutyOp (n : Fin 7) (d : Nat)
  | enableOp (n : Fin 7)
  | disableOp (n : Fin 7)
deriving DecidableEq, Repr

/-- Semantics of a user-level operation on peripheral `t`. -/
def PwmOp.apply (t : TimerId) : PwmOp → SysState → SysState
  | .setDutyOp n d => set_duty t n d
  | .enableOp n => enable t n
  | .disableOp n => disable t n

/-- Run a sequence of user-level operations in program order. -/
def runOps (t : TimerId) (ops : List PwmOp) (st : SysState) : SysState :=
  ops.foldl (fun s op => op.apply t s) st

/-- An operation is an enable/disable toggle (no compare-register write). -/
def PwmOp.isToggle : PwmOp → Bool
  | .setDutyOp _ _ => false
  | .enableOp _ => true
  | .disableOp _ => true

/-- An operation only a bound channel object can issue: its channel has a
`PwmGpio` entry (which excludes channel 0 and unexposed channels). -/
def PwmOp.validFor (t : TimerId) : PwmOp → Bool
  | .setDutyOp n _ => (pwmGpio t n).isSome
  | .enableOp n => (pwmGpio t n).isSome
  | .disableOp n => (pwmGpio t n).isSome

/-- A reset-state timer peripheral. -/
def TimerState.rstVal : TimerState :=
  { ctl := CtlReg.rstVal, ex := .D1, ccr := fun _ => 0, cctl := fun _ => CctlReg.rstVal }

/-- A reset system state: all timers at reset, all pins plain I/O. -/
def SysState.rstVal : SysState :=
  { tb := fun _ => TimerState.rstVal, gpio := fun _ => ⟨false, false⟩ }

theorem tb_set_sel0 (a : PinAddr) (st : SysState) : (set_sel0 a st).tb = st.tb := rfl

theorem tb_set_sel1 (a : PinAddr) (st : SysState) : (set_sel1 a st).tb = st.tb := rfl

theorem tb_clear_sel0 (a : PinAddr) (st : SysState) : (clear_sel0 a st).tb = st.tb := rfl

theorem tb_clear_sel1 (a : PinAddr) (st : SysState) : (clear_sel1 a st).tb = st.tb := rfl

theorem tb_to_alt (alt : Alt) (a : PinAddr) (st : SysState) :
    (to_alt alt a st).tb = st.tb := by
  cases alt <;> rfl

theorem tb_to_gpio (alt : Alt) (a : PinAddr) (st : SysState) :
    (to_gpio alt a st).tb = st.tb := by
  cases alt <;> rfl

theorem tb_enable (t : TimerId) (n : Fin 7) (st : SysState) :
    (enable t n st).tb = st.tb := by
  unfold enable
  cases pwmGpio t n with
  | none => rfl
  | some p => exact tb_to_alt p.2 p.1 st

theorem tb_disable (t : TimerId) (n : Fin 7) (st : SysState) :
    (disable t n st).tb = st.tb := by
  unfold disable
  cases pwmGpio t n with
  | none => rfl
  | some p => exact tb_to_gpio p.2 p.1 st

theorem gpio_updateTb (t : TimerId) (f : TimerState → TimerState) (st : SysState) :
    (updateTb t f st).gpio = st.gpio := rfl

theorem gpio_eventApply (e : Event) (st : SysState) : (e.apply st).gpio = st.gpio := by
  cases e <;> rfl

theorem runEvents_cons (e : Event) (es : List Event) (st : SysState) :
    runEvents (e :: es) st = runEvents es (e.apply st) := rfl

theorem gpio_runEvents (es : List Event) (st : SysState) :
    (runEvents es st).gpio = st.gpio := by
  induction es generalizing st with
  | nil => rfl
  | cons e es ih => exact (ih (e.apply st)).trans (gpio_eventApply e st)

theorem get_ccrn_config_clock (t t2 : TimerId) (n : Fin 7) (sel : Tbssel) (d : ID)
    (st : SysState) : get_ccrn t n (config_clock t2 sel d st) = get_ccrn t n st := by
  unfold get_ccrn config_clock updateTb
  by_cases h : t = t2
  · subst h; simp
  · simp [Function.update_noteq h]

theorem get_ccrn_set_tbidex (t t2 : TimerId) (n : Fin 7) (x : Tbidex)
    (st : SysState) : get_ccrn t n (set_tbidex t2 x st) = get_ccrn t n st := by
  unfold get_ccrn set_tbidex updateTb
  by_cases h : t = t2
  · subst h; simp
  · simp [Function.update_noteq h]

theorem get_ccrn_config_outmod (t t2 : TimerId) (n n2 : Fin 7) (m : Outmod)
    (st : SysState) : get_ccrn t n (config_outmod t2 n2 m st) = get_ccrn t n st := by
  unfold get_ccrn config_outmod updateTb
  by_cases h : t = t2
  · subst h; simp
  · simp [Function.update_noteq h]

theorem get_ccrn_upmode (t t2 : TimerId) (n : Fin 7) (st : SysState) :
    get_ccrn t n (upmode t2 st) = get_ccrn t n st := by
  unfold get_ccrn upmode updateTb
  by_cases h : t = t2
  · subst h; simp
  · simp [Function.update_noteq h]

theorem get_ccrn_set_ccrn_same (t : TimerId) (n : Fin 7) (c : Nat) (st : SysState) :
    get_ccrn t n (set_ccrn t n c st) = c % 65536 := by
  unfold get_ccrn set_ccrn updateTb
  simp

theorem get_ccrn_set_ccrn_ne (t t2 : TimerId) (n n2 : Fin 7) (c : Nat) (st : SysState)
    (h : t ≠ t2 ∨ n ≠ n2) : get_ccrn t n (set_ccrn t2 n2 c st) = get_ccrn t n st := by
  unfold get_ccrn set_ccrn updateTb
  by_cases ht : t = t2
  · subst ht
    rcases h with h | h
    · exact absurd rfl h
    · simp [Function.update_noteq h]
  · simp [Function.update_noteq ht]

/-- Every (timer, channel) pair with a PwmGpio entry has the alternate
function the pin table documents: Alternate2 on TB0, Alternate1 elsewhere. -/
theorem pwmGpio_alt_table :
    ∀ (t : TimerId) (n : Fin 7),
      (pwmGpio t n).map Prod.snd = none ∨
        (pwmGpio t n).map Prod.snd =
          some (if t = TimerId.tb0 then Alt.Alt2 else Alt.Alt1) := by
  decide

/-- Channel 0 (and any unexposed channel) has no PwmGpio entry. -/
theorem pwmGpio_isSome_ne_zero :
    ∀ (t : TimerId) (n : Fin 7), (pwmGpio t n).isSome = true → n ≠ 0 := by
  decide

/-- Function-select state a plain-I/O pin ends in after being switched to
the given alternate function. -/
def altFunc : Alt → PinFunc
  | .Alt1 => ⟨true, false⟩
  | .Alt2 => ⟨false, true⟩

/-- C1: for every valid (timer, channel) pair, the binding flow switches
exactly that channel's designated pin to the documented alternate
function — Alternate2 for TB0 channels, Alternate1 for TB1/TB2/TB3
channels — and changes the function-select state of no other pin. -/
theorem c1_bind_switches_exactly_designated_pin (t : TimerId) (n : Fin 7)
    (a : PinAddr) (alt : Alt) (st : SysState)
    (h : pwmGpio t n = some (a, alt)) (h0 : st.gpio a = ⟨false, false⟩) :
    alt = (if t = TimerId.tb0 then Alt.Alt2 else Alt.Alt1)
    ∧ (bindPin t n st).gpio a = altFunc alt
    ∧ ∀ b : PinAddr, b ≠ a → (bindPin t n st).gpio b = st.gpio b := by
  have halt : alt = (if t = TimerId.tb0 then Alt.Alt2 else Alt.Alt1) := by
    rcases pwmGpio_alt_table t n with hm | hm
    · rw [h] at hm; simp at hm
    · rw [h] at hm; simpa using hm
  refine ⟨halt, ?_, ?_⟩
  · simp only [bindPin, h]
    cases alt with
    | Alt1 => simp [to_alt, set_sel0, h0, altFunc]
    | Alt2 => simp [to_alt, set_sel1, h0, altFunc]
  · intro b hb
    simp only [bindPin, h]
    cases alt with
    | Alt1 => simp [to_alt, set_sel0, Function.update_noteq hb]
    | Alt2 => simp [to_alt, set_sel1, Function.update_noteq hb]

/-- Witness for C1 at (TB0, channel 1): binding switches P1.6 to
Alternate2 and leaves P1.7 untouched. -/
theorem c1_bind_witness :
    (Alt.Alt2 = if TimerId.tb0 = TimerId.tb0 then Alt.Alt2 else Alt.Alt1)
    ∧ (bindPin TimerId.tb0 1 SysState.rstVal).gpio ⟨1, 6⟩ = altFunc Alt.Alt2
    ∧ (bindPin TimerId.tb0 1 SysState.rstVal).gpio ⟨1, 7⟩ =
        SysState.rstVal.gpio ⟨1, 7⟩ := by
  have h := c1_bind_switches_exactly_designated_pin TimerId.tb0 1 ⟨1, 6⟩ Alt.Alt2
    SysState.rstVal (by decide) rfl
  exact ⟨h.1, h.2.1, h.2.2 ⟨1, 7⟩ (by decide)⟩

/-- C5: on a bound channel, enable and disable leave every timer register
— in particular the compare (duty) register and the run/stop mode —
unchanged, touch no pin other than the bound one, and disable followed by
enable leaves the stored duty exactly as it was. -/
theorem c5_enable_disable_frame (t : TimerId) (n : Fin 7) (a : PinAddr)
    (alt : Alt) (st : SysState) (h : pwmGpio t n = some (a, alt)) :
    (enable t n st).tb = st.tb
    ∧ (disable t n st).tb = st.tb
    ∧ (∀ b : PinAddr, b ≠ a → (enable t n st).gpio b = st.gpio b)
    ∧ (∀ b : PinAddr, b ≠ a → (disable t n st).gpio b = st.gpio b)
    ∧ get_duty t n (enable t n (disable t n st)) = get_duty t n st := by
  refine ⟨tb_enable t n st, tb_disable t n st, ?_, ?_, ?_⟩
  · intro b hb
    simp only [enable, h]
    cases alt with
    | Alt1 => simp [to_alt, set_sel0, Function.update_noteq hb]
    | Alt2 => simp [to_alt, set_sel1, Function.update_noteq hb]
  · intro b hb
    simp only [disable, h]
    cases alt with
    | Alt1 => simp [to_gpio, clear_sel0, Function.update_noteq hb]
    | Alt2 => simp [to_gpio, clear_sel1, Function.update_noteq hb]
  · show ((enable t n (disable t n st)).tb t).ccr n = (st.tb t).ccr n
    rw [tb_enable, tb_disable]

/-- Witness for C5 at (TB0, channel 1) from the reset state. -/
theorem c5_enable_disable_witness :
    (enable TimerId.tb0 1 SysState.rstVal).tb = SysState.rstVal.tb
    ∧ (disable TimerId.tb0 1 SysState.rstVal).tb = SysState.rstVal.tb
    ∧ get_duty TimerId.tb0 1
        (enable TimerId.tb0 1 (disable TimerId.tb0 1 SysState.rstVal)) =
        get_duty TimerId.tb0 1 SysState.rstVal := by
  have h := c5_enable_disable_frame TimerId.tb0 1 ⟨1, 6⟩ Alt.Alt2
    SysState.rstVal (by decide)
  exact ⟨h.1, h.2.1, h.2.2.2.2⟩

/-- C6: set_duty is an unconditional, total compare-register write — no
range check against the period, no failure — and a duty exceeding the
period yields the defined saturating always-asserted output. -/
theorem c6_set_duty_unconditional (t : TimerId) (n : Fin 7) (d period : Nat)
    (st : SysState) (hd : d < 65536) :
    get_duty t n (set_duty t n d st) = d
    ∧ (period < d → ∀ cnt, cnt ≤ period → outputHigh period d cnt = true) := by
  constructor
  · show get_ccrn t n (set_ccrn t n d st) = d
    rw [get_ccrn_set_ccrn_same]
    exact Nat.mod_eq_of_lt hd
  · intro hpd cnt hcnt
    unfold outputHigh
    simp only [decide_eq_true_eq]
    omega

/-- Witness for C6: duty 1500 against period 1000 is stored verbatim and
asserts the output for the whole period. -/
theorem c6_set_duty_witness :
    get_duty TimerId.tb0 1 (set_duty TimerId.tb0 1 1500 SysState.rstVal) = 1500
    ∧ outputHigh 1000 1500 1000 = true := by
  have h := c6_set_duty_unconditional TimerId.tb0 1 1500 1000 SysState.rstVal
    (by decide)
  exact ⟨h.1, h.2 (by decide) 1000 (by decide)⟩

/-- A concrete TBxCCTLn value with CCIFG, CCIE and COV all set. -/
def c9Cctl : CctlReg :=
  { outmod := .Out, cap := false, scs := false, cm := .NoCap, ccis := .InputA,
    ccifg := true, ccie := true, cov := true }

/-- A system state in which TB0 channel 1 has CCIFG, CCIE and COV set. -/
def c9State : SysState :=
  updateTb .tb0 (fun ts => { ts with cctl := Function.update ts.cctl 1 c9Cctl })
    SysState.rstVal

/-- C9: evaluation of cov_ccifg_clr at the failing input (CCIFG = CCIE =
COV = 1).  The code clears CCIE and COV and leaves the pending-interrupt
flag CCIFG set, contradicting the claim (and the accessor's own name),
which require COV and CCIFG cleared with CCIE untouched. -/
theorem c9_cov_ccifg_clr_clears_ccie_not_ccifg :
    ((cov_ccifg_clr TimerId.tb0 1 c9State).tb TimerId.tb0).cctl 1 =
      { outmod := .Out, cap := false, scs := false, cm := .NoCap,
        ccis := .InputA, ccifg := true, ccie := false, cov := false } := by
  decide

/-- C10: set_duty writes only its own channel's compare register: the
period register CCR0, every other compare register, every channel control
register, the timer control and expansion registers, the other timer
peripherals and every pin are left unchanged. -/
theorem c10_set_duty_frame (t : TimerId) (n : Fin 7) (d : Nat) (st : SysState)
    (h : (pwmGpio t n).isSome = true) :
    ((set_duty t n d st).tb t).ccr 0 = (st.tb t).ccr 0
    ∧ (∀ m : Fin 7, m ≠ n → ((set_duty t n d st).tb t).ccr m = (st.tb t).ccr m)
    ∧ (∀ m : Fin 7, ((set_duty t n d st).tb t).cctl m = (st.tb t).cctl m)
    ∧ ((set_duty t n d st).tb t).ctl = (st.tb t).ctl
    ∧ ((set_duty t n d st).tb t).ex = (st.tb t).ex
    ∧ (∀ t2 : TimerId, t2 ≠ t → (set_duty t n d st).tb t2 = st.tb t2)
    ∧ (set_duty t n d st).gpio = st.gpio := by
  have key : (set_duty t n d st).tb t =
      { st.tb t with ccr := Function.update (st.tb t).ccr n (d % 65536) } := by
    unfold set_duty set_ccrn updateTb
    simp
  refine ⟨?_, ?_, ?_, ?_, ?_, ?_, rfl⟩
  · rw [key]
    exact Function.update_noteq (pwmGpio_isSome_ne_zero t n h).symm _ _
  · intro m hm
    rw [key]
    exact Function.update_noteq hm _ _
  · intro m
    rw [key]
  · rw [key]
  · rw [key]
  · intro t2 ht2
    unfold set_duty set_ccrn updateTb
    simp [Function.update_noteq ht2]

/-- Witness for C10 at (TB0, channel 1), duty 250, reset state. -/
theorem c10_set_duty_witness :
    ((set_duty TimerId.tb0 1 250 SysState.rstVal).tb TimerId.tb0).ccr 0 =
      ((SysState.rstVal).tb TimerId.tb0).ccr 0
    ∧ ((set_duty TimerId.tb0 1 250 SysState.rstVal).tb TimerId.tb0).ccr 2 =
      ((SysState.rstVal).tb TimerId.tb0).ccr 2
    ∧ ((set_duty TimerId.tb0 1 250 SysState.rstVal).tb TimerId.tb0).cctl 1 =
      ((SysState.rstVal).tb TimerId.tb0).cctl 1
    ∧ (set_duty TimerId.tb0 1 250 SysState.rstVal).tb TimerId.tb1 =
      (SysState.rstVal).tb TimerId.tb1 := by
  have h := c10_set_duty_frame TimerId.tb0 1 250 SysState.rstVal (by decide)
  exact ⟨h.1, h.2.1 2 (by decide), h.2.2.1 1, h.2.2.2.2.2.1 TimerId.tb1 (by decide)⟩

theorem tb_runOps_toggles (t : TimerId) (ops : List PwmOp) (st : SysState)
    (h : ops.all PwmOp.isToggle = true) : (runOps t ops st).tb = st.tb := by
  induction ops generalizing st with
  | nil => rfl
  | cons op ops ih =>
    rw [List.all_cons, Bool.and_eq_true] at h
    have hstep : (op.apply t st).tb = st.tb := by
      cases op with
      | setDutyOp m d => simp [PwmOp.isToggle] at h
      | enableOp m => exact tb_enable t m st
      | disableOp m => exact tb_disable t m st
    calc (runOps t (op :: ops) st).tb
        = (runOps t ops (op.apply t st)).tb := rfl
      _ = (op.apply t st).tb := ih (op.apply t st) h.2
      _ = st.tb := hstep

/-- C3: on a bound channel, get_duty after set_duty d returns exactly d,
whatever sequence of enable/disable calls happens in between (and from
any starting state, so also whatever happened before). -/
theorem c3_duty_roundtrip (t : TimerId) (n : Fin 7) (d : Nat) (st : SysState)
    (ops : List PwmOp) (_hv : (pwmGpio t n).isSome = true) (hd : d < 65536)
    (hops : ops.all PwmOp.isToggle = true) :
    get_duty t n (runOps t ops (set_duty t n d st)) = d := by
  show ((runOps t ops (set_duty t n d st)).tb t).ccr n = d
  rw [tb_runOps_toggles t ops _ hops]
  show get_ccrn t n (set_ccrn t n d st) = d
  rw [get_ccrn_set_ccrn_same]
  exact Nat.mod_eq_of_lt hd

/-- Witness for C3 at (TB0, channel 1): set 250, then enable, disable,
enable; the readback is 250. -/
theorem c3_duty_roundtrip_witness :
    get_duty TimerId.tb0 1
      (runOps TimerId.tb0 [.enableOp 1, .disableOp 1, .enableOp 1]
        (set_duty TimerId.tb0 1 250 SysState.rstVal)) = 250 := by
  exact c3_duty_roundtrip TimerId.tb0 1 250 SysState.rstVal
    [.enableOp 1, .disableOp 1, .enableOp 1] (by decide) (by decide) (by decide)

theorem ccr0_runOps_valid (t : TimerId) (ops : List PwmOp) (st : SysState)
    (h : ops.all (PwmOp.validFor t) = true) :
    get_ccrn t 0 (runOps t ops st) = get_ccrn t 0 st := by
  induction ops generalizing st with
  | nil => rfl
  | cons op ops ih =>
    rw [List.all_cons, Bool.and_eq_true] at h
    have hstep : get_ccrn t 0 (op.apply t st) = get_ccrn t 0 st := by
      cases op with
      | setDutyOp m d =>
        have hm : m ≠ 0 := pwmGpio_isSome_ne_zero t m h.1
        exact get_ccrn_set_ccrn_ne t t 0 m d st (Or.inr (Ne.symm hm))
      | enableOp m =>
        show ((enable t m st).tb t).ccr 0 = (st.tb t).ccr 0
        rw [tb_enable]
      | disableOp m =>
        show ((disable t m st).tb t).ccr 0 = (st.tb t).ccr 0
        rw [tb_disable]
    calc get_ccrn t 0 (runOps t (op :: ops) st)
        = get_ccrn t 0 (runOps t ops (op.apply t st)) := rfl
      _ = get_ccrn t 0 (op.apply t st) := ih (op.apply t st) h.2
      _ = get_ccrn t 0 st := hstep

theorem get_ccrn0_to_pwm (t : TimerId) (cfg : TimerConfig) (p : Nat)
    (st : SysState) : get_ccrn t 0 (to_pwm t cfg p st) = p % 65536 := by
  cases t <;>
    simp [to_pwm, to_pwmTrace, write_regs, config_channels, pwmChannels,
      runEvents, Event.apply, List.foldl_cons, List.foldl_nil,
      get_ccrn_upmode, get_ccrn_config_outmod, get_ccrn_set_tbidex,
      get_ccrn_config_clock, get_ccrn_set_ccrn_same]

/-- C4: after to_pwm with period p, get_max_duty returns p through any
bound channel, however many duty writes and enable/disable calls on bound
channels follow, and the value read does not depend on which channel it
is read through. -/
theorem c4_max_duty_tracks_period (t : TimerId) (n : Fin 7) (cfg : TimerConfig)
    (p : Nat) (st : SysState) (ops : List PwmOp) (hp : p < 65536)
    (_hn : (pwmGpio t n).isSome = true)
    (hops : ops.all (PwmOp.validFor t) = true) :
    get_max_duty t n (runOps t ops (to_pwm t cfg p st)) = p
    ∧ ∀ n2 : Fin 7, get_max_duty t n2 (runOps t ops (to_pwm t cfg p st)) =
        get_max_duty t n (runOps t ops (to_pwm t cfg p st)) := by
  constructor
  · show get_ccrn t 0 (runOps t ops (to_pwm t cfg p st)) = p
    rw [ccr0_runOps_valid t ops _ hops, get_ccrn0_to_pwm]
    exact Nat.mod_eq_of_lt hp
  · intro n2
    rfl

/-- An arbitrary concrete timer configuration used by the witnesses. -/
def cfgEx : TimerConfig := { src := .subMain, div := .D1, exDiv := .D1 }

/-- Witness for C4 at (TB0, channel 1), period 1000, with a duty write of
250 and an enable in between. -/
theorem c4_max_duty_witness :
    get_max_duty TimerId.tb0 1
      (runOps TimerId.tb0 [.setDutyOp 1 250, .enableOp 1]
        (to_pwm TimerId.tb0 cfgEx 1000 SysState.rstVal)) = 1000 := by
  exact (c4_max_duty_tracks_period TimerId.tb0 1 cfgEx 1000 SysState.rstVal
    [.setDutyOp 1 250, .enableOp 1] (by decide) (by decide) (by decide)).1

/-- Configuration phase an event belongs to, numbered in the order the
spec requires: clock/divider registers (0), period into CCR0 (1), CCR0
output mode (2), other channels' output mode (3), timer start (4). -/
def Event.phase : Event → Nat
  | .configClockEv _ _ _ => 0
  | .setTbidexEv _ _ => 0
  | .setCcrnEv _ _ _ => 1
  | .configOutmodEv _ n _ => if n = 0 then 2 else 3
  | .upmodeEv _ => 4

theorem to_pwmTrace_head (t : TimerId) (cfg : TimerConfig) (p : Nat) :
    (to_pwmTrace t cfg p).head? =
      some (.configClockEv t cfg.src.toTbssel cfg.div) := by
  cases t <;> rfl

theorem to_pwmTrace_last (t : TimerId) (cfg : TimerConfig) (p : Nat) :
    (to_pwmTrace t cfg p).getLast? = some (.upmodeEv t) := by
  cases t <;> rfl

/-- C2: to_pwm issues its register writes in the required order — clock
and divider configuration first, then the period into CCR0, then CCR0's
output mode (Toggle), then every other usable channel's output mode
(ResetSet, the mode the spec calls set-reset), and finally, after all of
those, the up-mode start. -/
theorem c2_to_pwm_order (t : TimerId) (cfg : TimerConfig) (p : Nat) :
    List.Pairwise (fun e f => Event.phase e ≤ Event.phase f)
      (to_pwmTrace t cfg p)
    ∧ (to_pwmTrace t cfg p).head? =
        some (.configClockEv t cfg.src.toTbssel cfg.div)
    ∧ Event.setTbidexEv t cfg.exDiv ∈ to_pwmTrace t cfg p
    ∧ Event.setCcrnEv t 0 p ∈ to_pwmTrace t cfg p
    ∧ Event.configOutmodEv t 0 Outmod.Toggle ∈ to_pwmTrace t cfg p
    ∧ (∀ c : Fin 7, c ∈ pwmChannels t →
        Event.configOutmodEv t c Outmod.ResetSet ∈ to_pwmTrace t cfg p)
    ∧ (to_pwmTrace t cfg p).getLast? = some (.upmodeEv t) := by
  refine ⟨?_, to_pwmTrace_head t cfg p, ?_, ?_, ?_, ?_, to_pwmTrace_last t cfg p⟩
  · cases t <;>
      simp [to_pwmTrace, write_regs, config_channels, pwmChannels,
        List.pairwise_cons, Event.phase]
  · cases t <;>
      simp [to_pwmTrace, write_regs, config_channels, pwmChannels]
  · cases t <;>
      simp [to_pwmTrace, write_regs, config_channels, pwmChannels]
  · cases t <;>
      simp [to_pwmTrace, write_regs, config_channels, pwmChannels]
  · intro c hc
    cases t <;> fin_cases hc <;>
      simp [to_pwmTrace, write_regs, config_channels, pwmChannels]

/-- Witness for C2 at TB0: channel 1's ResetSet write is in the trace and
the up-mode start is the last event. -/
theorem c2_to_pwm_order_witness :
    Event.configOutmodEv TimerId.tb0 1 Outmod.ResetSet ∈
      to_pwmTrace TimerId.tb0 cfgEx 1000
    ∧ (to_pwmTrace TimerId.tb0 cfgEx 1000).getLast? =
        some (.upmodeEv TimerId.tb0) := by
  have h := c2_to_pwm_order TimerId.tb0 cfgEx 1000
  exact ⟨h.2.2.2.2.2.1 1 (by decide), h.2.2.2.2.2.2⟩

/-- C7: to_pwm yields one unbound channel object per usable channel —
channel count (3 or 7) minus the reserved channel 0, so 2 for TB0/TB1/TB2
and 6 for TB3 — each a distinct channel with its own designated pin, and
switches no pin to timer function. -/
theorem c7_to_pwm_unbound_pins (t : TimerId) (cfg : TimerConfig) (p : Nat)
    (st : SysState) :
    (to_pwmPins t).length = chanCount t - 1
    ∧ (chanCount t = 3 ∨ chanCount t = 7)
    ∧ List.Nodup ((to_pwmPins t).map Prod.fst)
    ∧ (∀ pr : Fin 7 × PwmState, pr ∈ to_pwmPins t →
        pr.2 = PwmState.unbound ∧ pr.1 ≠ 0 ∧ (pwmGpio t pr.1).isSome = true)
    ∧ ∀ b : PinAddr, (to_pwm t cfg p st).gpio b = st.gpio b := by
  refine ⟨?_, ?_, ?_, ?_, ?_⟩
  · cases t <;> rfl
  · cases t <;> simp [chanCount]
  · cases t <;> decide
  · cases t <;> decide
  · intro b
    exact congrFun (gpio_runEvents (to_pwmTrace t cfg p) st) b

/-- Witness for C7 at TB3: 6 channel objects, channel 1 among them with a
pin entry, and pin P6.0 untouched by to_pwm. -/
theorem c7_to_pwm_witness :
    (to_pwmPins TimerId.tb3).length = chanCount TimerId.tb3 - 1
    ∧ (pwmGpio TimerId.tb3 (1 : Fin 7)).isSome = true
    ∧ (to_pwm TimerId.tb3 cfgEx 1000 SysState.rstVal).gpio ⟨6, 0⟩ =
        SysState.rstVal.gpio ⟨6, 0⟩ := by
  have h := c7_to_pwm_unbound_pins TimerId.tb3 cfgEx 1000 SysState.rstVal
  exact ⟨h.1, (h.2.2.2.1 (1, PwmState.unbound) (by decide)).2.2, h.2.2.2.2 ⟨6, 0⟩⟩

/-- C8 counterexample: 3 lies in 1..8, yet no value of the first divider
stage (enum ID) divides by 3 — the first stage does not range over all of
1..8, only over {1, 2, 4, 8}. -/
theorem c8_divider_counterexample :
    (1 ≤ 3 ∧ 3 ≤ 8) ∧ ¬ ∃ i : ID, ID.factor i = 3 := by
  decide

/-- C8 (amended): the clock configuration takes a source from
{internal-low, auxiliary, sub-main}; the divider has two stages, the
first ranging over {1, 2, 4, 8}, the second over all of 1..8, so the
combined division factor lies between 1 and 64 with both extremes
attainable; and the configuration is applied before the timer is
started. -/
theorem c8_clock_divider_amended :
    (∀ s : ClockSource,
      s.toTbssel = Tbssel.Inclk ∨ s.toTbssel = Tbssel.Aclk ∨
        s.toTbssel = Tbssel.Smclk)
    ∧ (∀ i : ID, ID.factor i = 1 ∨ ID.factor i = 2 ∨ ID.factor i = 4 ∨
        ID.factor i = 8)
    ∧ (∀ x : Tbidex, 1 ≤ Tbidex.factor x ∧ Tbidex.factor x ≤ 8)
    ∧ (∀ k : Nat, 1 ≤ k → k ≤ 8 → ∃ x : Tbidex, Tbidex.factor x = k)
    ∧ (∀ (i : ID) (x : Tbidex),
        1 ≤ ID.factor i * Tbidex.factor x ∧ ID.factor i * Tbidex.factor x ≤ 64)
    ∧ (∃ (i : ID) (x : Tbidex), ID.factor i * Tbidex.factor x = 1)
    ∧ (∃ (i : ID) (x : Tbidex), ID.factor i * Tbidex.factor x = 64)
    ∧ (∀ (t : TimerId) (cfg : TimerConfig) (p : Nat),
        (to_pwmTrace t cfg p).head? =
          some (.configClockEv t cfg.src.toTbssel cfg.div)
        ∧ (to_pwmTrace t cfg p).getLast? = some (.upmodeEv t)) := by
  refine ⟨by decide, by decide, by decide, ?_, by decide, by decide, by decide, ?_⟩
  · intro k h1 h2
    interval_cases k <;> decide
  · intro t cfg p
    exact ⟨to_pwmTrace_head t cfg p, to_pwmTrace_last t cfg p⟩

/-- Witness for C8 (amended): the second stage does reach the divider 3. -/
theorem c8_clock_divider_witness : ∃ x : Tbidex, Tbidex.factor x = 3 := by
  exact c8_clock_divider_amended.2.2.2.1 3 (by decide) (by decide)
